import Mathlib

/-!
Shallow embedding of the PokeAlarm event-filtering pipeline
(src/PokeAlarm/Filters.py, src/PokeAlarm/Manager.py, src/PokeAlarm/Utils.py).

Conventions of the embedding:
* Python floats that only ever hold finite config numbers or `float('inf')`
  are modelled by `PFloat` (a rational or infinity).
* Python's missing-value sentinels (`'?'`, `'unknown'`, `'-'`) on event fields
  are modelled by `Option` (`none` = sentinel).
* Python sets of ids are modelled as lists with membership; only membership
  and value equality are ever used by the source.
* `Cache` and `Geofence` are classes of this repository whose files are not
  part of the snapshot; they are modelled from the spec where marked.
-/

/-- Python float restricted to the values the filter code actually stores:
a finite number or `float('inf')`. -/
inductive PFloat where
  | fin (q : ℚ)
  | inf
deriving DecidableEq, Repr

namespace PFloat

/-- Comparison `a <= b` on Python floats as used by chained range checks. -/
def leB : PFloat → PFloat → Bool
  | fin a, fin b => a ≤ b
  | fin _, inf => true
  | inf, fin _ => false
  | inf, inf => true

end PFloat

/-- Distance as produced by `Utils.get_earth_dist`: either the string
sentinel `'unkn'` (no reference location) or a numeric distance. -/
inductive PDist where
  | unkn
  | known (q : ℚ)
deriving DecidableEq, Repr

/-- Valid size codes accepted by `PokemonFilter.check_sizes`
(`['T', 'S', 'N', 'L', 'B']`). -/
inductive SizeV where
  | T | S | N | L | B
deriving DecidableEq, Repr

/-- The three canonical genders of `PokemonFilter.check_genders`
(the source normalises the symbols and names to one canonical set). -/
inductive GenderV where
  | male | female | neutral
deriving DecidableEq, Repr

/-- Mirror of `settings.pop(key, None) or default[key]` for integer config
values: an absent key or a falsy (zero) value falls back to the default. -/
def orDefaultInt (v : Option ℤ) (d : ℤ) : ℤ :=
  match v with
  | none => d
  | some x => if x = 0 then d else x

/-- Mirror of `settings.pop(key, None) or default[key]` for float config
values: an absent key or a falsy (zero) value falls back to the default. -/
def orDefaultPF (v : Option PFloat) (d : PFloat) : PFloat :=
  match v with
  | none => d
  | some x => if x = PFloat.fin 0 then d else x

/-- Mirror of `settings.pop(key, None) or default[key]` for rational config
values (IV percentages). -/
def orDefaultRat (v : Option ℚ) (d : ℚ) : ℚ :=
  match v with
  | none => d
  | some x => if x = 0 then d else x

/-- Mirror of `(settings.pop(key, None) or default[key]).upper()` for the
single-letter rating grades. -/
def orDefaultGrade (v : Option Char) (d : Char) : Char :=
  (match v with
   | none => d
   | some c => c).toUpper

/-- The filter built by `PokemonFilter.__init__` (Filters.py lines 240-282).
`mention` has no counterpart in the snapshot's Filters.py even though
`Manager.check_pokemon_filter` calls `filt.check_mention()`; it is carried as
an inert field that never influences whether a filter matches. -/
structure PokemonFilter where
  min_dist : PFloat
  max_dist : PFloat
  ignore_missing : Bool
  min_cp : ℤ
  max_cp : ℤ
  needs_cp : Bool
  min_level : ℤ
  max_level : ℤ
  needs_level : Bool
  min_iv : ℚ
  max_iv : ℚ
  needs_iv : Bool
  min_atk : ℤ
  max_atk : ℤ
  needs_atk : Bool
  min_defiv : ℤ
  max_defiv : ℤ
  needs_defiv : Bool
  min_sta : ℤ
  max_sta : ℤ
  needs_sta : Bool
  sizes : Option (List SizeV)
  genders : Option (List GenderV)
  forms : Option (List ℤ)
  req_quick_move : Option (List ℤ)
  req_charge_move : Option (List ℤ)
  req_moveset : Option (List (List ℤ))
  min_rating_attack : Char
  max_rating_attack : Char
  needs_rating_attack : Bool
  min_rating_defense : Char
  max_rating_defense : Char
  needs_rating_defense : Bool
  mention : String
deriving DecidableEq, Repr

/-- The defaults dict shape shared by `PokemonFilter.get_defaults()` and the
`default` argument of `PokemonFilter.__init__` (a `to_dict()` of a filter). -/
structure PokemonDefaults where
  min_dist : PFloat
  max_dist : PFloat
  ignore_missing : Bool
  min_cp : ℤ
  max_cp : ℤ
  min_level : ℤ
  max_level : ℤ
  min_iv : ℚ
  max_iv : ℚ
  min_atk : ℤ
  max_atk : ℤ
  min_defiv : ℤ
  max_defiv : ℤ
  min_sta : ℤ
  max_sta : ℤ
  size : Option (List SizeV)
  gender : Option (List GenderV)
  form : Option (List ℤ)
  quick_move : Option (List ℤ)
  charge_move : Option (List ℤ)
  moveset : Option (List (List ℤ))
  min_rating_attack : Char
  max_rating_attack : Char
  min_rating_defense : Char
  max_rating_defense : Char
deriving DecidableEq, Repr

namespace PokemonFilter

/-- `PokemonFilter.get_defaults()` (Filters.py lines 415-433), with
`Filter.get_defaults()` merged in; `sys.maxint` is the 64-bit CPython value. -/
def get_defaults : PokemonDefaults where
  min_dist := PFloat.fin 0
  max_dist := PFloat.inf
  ignore_missing := false
  min_cp := 0
  max_cp := 9223372036854775807
  min_level := 0
  max_level := 40
  min_iv := 0
  max_iv := 100
  min_atk := 0
  max_atk := 15
  min_defiv := 0
  max_defiv := 15
  min_sta := 0
  max_sta := 15
  size := none
  gender := none
  form := none
  quick_move := none
  charge_move := none
  moveset := none
  min_rating_attack := 'F'
  max_rating_attack := 'A'
  min_rating_defense := 'F'
  max_rating_defense := 'A'

end PokemonFilter

/-- Settings dict passed to `PokemonFilter.__init__`: `none` means the key is
absent. Move and team names are modelled directly by their looked-up ids
(the name-to-id tables are external data per spec section 1). -/
structure PokemonSettings where
  min_dist : Option PFloat := none
  max_dist : Option PFloat := none
  ignore_missing : Option Bool := none
  min_cp : Option ℤ := none
  max_cp : Option ℤ := none
  min_level : Option ℤ := none
  max_level : Option ℤ := none
  min_iv : Option ℚ := none
  max_iv : Option ℚ := none
  min_atk : Option ℤ := none
  max_atk : Option ℤ := none
  min_defiv : Option ℤ := none
  max_defiv : Option ℤ := none
  min_sta : Option ℤ := none
  max_sta : Option ℤ := none
  size : Option (List SizeV) := none
  gender : Option (List GenderV) := none
  form : Option (List ℤ) := none
  quick_move : Option (List ℤ) := none
  charge_move : Option (List ℤ) := none
  moveset : Option (List (List ℤ)) := none
  min_rating_attack : Option Char := none
  max_rating_attack : Option Char := none
  min_rating_defense : Option Char := none
  max_rating_defense : Option Char := none
deriving DecidableEq, Repr

namespace PokemonFilter

/-- `PokemonFilter.__init__(settings, default, location)` (Filters.py lines
240-282). Validation helpers (`check_sizes`, `check_genders`, `check_forms`,
`create_moves_list`) either exit the process on invalid names or return the
value as a set; on the well-typed settings modelled here they are the
identity. The `needs_*` flags compare against the static schema defaults
`pDefaults`, not the (possibly user-customised) `default` argument. -/
def fromSettings (s : PokemonSettings) (default : PokemonDefaults) : PokemonFilter :=
  let pd := PokemonFilter.get_defaults
  let min_cp := orDefaultInt s.min_cp default.min_cp
  let max_cp := orDefaultInt s.max_cp default.max_cp
  let min_level := orDefaultInt s.min_level default.min_level
  let max_level := orDefaultInt s.max_level default.max_level
  let min_iv := orDefaultRat s.min_iv default.min_iv
  let max_iv := orDefaultRat s.max_iv default.max_iv
  let min_atk := orDefaultInt s.min_atk default.min_atk
  let max_atk := orDefaultInt s.max_atk default.max_atk
  let min_defiv := orDefaultInt s.min_defiv default.min_defiv
  let max_defiv := orDefaultInt s.max_defiv default.max_defiv
  let min_sta := orDefaultInt s.min_sta default.min_sta
  let max_sta := orDefaultInt s.max_sta default.max_sta
  let min_ra := orDefaultGrade s.min_rating_attack default.min_rating_attack
  let max_ra := orDefaultGrade s.max_rating_attack default.max_rating_attack
  let min_rd := orDefaultGrade s.min_rating_defense default.min_rating_defense
  let max_rd := orDefaultGrade s.max_rating_defense default.max_rating_defense
  { min_dist := orDefaultPF s.min_dist default.min_dist
    max_dist := orDefaultPF s.max_dist default.max_dist
    ignore_missing := s.ignore_missing.getD default.ignore_missing
    min_cp := min_cp
    max_cp := max_cp
    needs_cp := decide (min_cp ≠ pd.min_cp) || decide (max_cp ≠ pd.max_cp)
    min_level := min_level
    max_level := max_level
    needs_level := decide (min_level ≠ pd.min_level) || decide (max_level ≠ pd.max_level)
    min_iv := min_iv
    max_iv := max_iv
    needs_iv := decide (min_iv ≠ pd.min_iv) || decide (max_iv ≠ pd.max_iv)
    min_atk := min_atk
    max_atk := max_atk
    needs_atk := decide (min_atk ≠ pd.min_atk) || decide (max_atk ≠ pd.max_atk)
    min_defiv := min_defiv
    max_defiv := max_defiv
    needs_defiv := decide (min_defiv ≠ pd.min_defiv) || decide (max_defiv ≠ pd.max_defiv)
    min_sta := min_sta
    max_sta := max_sta
    needs_sta := decide (min_sta ≠ pd.min_sta) || decide (max_sta ≠ pd.max_sta)
    sizes := match s.size with | some l => some l | none => default.size
    genders := match s.gender with | some l => some l | none => default.gender
    forms := match s.form with | some l => some l | none => default.form
    req_quick_move := match s.quick_move with | some l => some l | none => default.quick_move
    req_charge_move := match s.charge_move with | some l => some l | none => default.charge_move
    req_moveset := match s.moveset with | some l => some l | none => default.moveset
    min_rating_attack := min_ra
    max_rating_attack := max_ra
    needs_rating_attack := decide (min_ra ≠ pd.min_rating_attack) || decide (max_ra ≠ pd.max_rating_attack)
    min_rating_defense := min_rd
    max_rating_defense := max_rd
    needs_rating_defense := decide (min_rd ≠ pd.min_rating_defense) || decide (max_rd ≠ pd.max_rating_defense)
    mention := "" }

/-- `Filter.check_dist` (Filters.py lines 218-220). -/
def check_dist (f : PokemonFilter) (dist : ℚ) : Bool :=
  f.min_dist.leB (PFloat.fin dist) && (PFloat.fin dist).leB f.max_dist

/-- `PokemonFilter.check_cp` (Filters.py lines 284-286). -/
def check_cp (f : PokemonFilter) (cp : ℤ) : Bool :=
  decide (f.min_cp ≤ cp) && decide (cp ≤ f.max_cp)

/-- `PokemonFilter.check_level` (Filters.py lines 288-290). -/
def check_level (f : PokemonFilter) (level : ℤ) : Bool :=
  decide (f.min_level ≤ level) && decide (level ≤ f.max_level)

/-- `PokemonFilter.check_iv` (Filters.py lines 292-294). -/
def check_iv (f : PokemonFilter) (iv : ℚ) : Bool :=
  decide (f.min_iv ≤ iv) && decide (iv ≤ f.max_iv)

/-- `PokemonFilter.check_atk` (Filters.py lines 296-298). -/
def check_atk (f : PokemonFilter) (atk : ℤ) : Bool :=
  decide (f.min_atk ≤ atk) && decide (atk ≤ f.max_atk)

/-- `PokemonFilter.check_def` (Filters.py lines 300-302). -/
def check_defiv (f : PokemonFilter) (dv : ℤ) : Bool :=
  decide (f.min_defiv ≤ dv) && decide (dv ≤ f.max_defiv)

/-- `PokemonFilter.check_sta` (Filters.py lines 304-306). -/
def check_sta (f : PokemonFilter) (sta : ℤ) : Bool :=
  decide (f.min_sta ≤ sta) && decide (sta ≤ f.max_sta)

/-- `PokemonFilter.check_quick_move` (Filters.py lines 308-312). -/
def check_quick_move (f : PokemonFilter) (move_id : ℤ) : Bool :=
  match f.req_quick_move with
  | none => true
  | some moves => decide (move_id ∈ moves)

/-- `PokemonFilter.check_charge_move` (Filters.py lines 314-318). -/
def check_charge_move (f : PokemonFilter) (move_id : ℤ) : Bool :=
  match f.req_charge_move with
  | none => true
  | some moves => decide (move_id ∈ moves)

/-- `PokemonFilter.check_moveset` (Filters.py lines 320-327): the pair of
moves matches when some configured combination contains both. -/
def check_moveset (f : PokemonFilter) (move_1_id move_2_id : ℤ) : Bool :=
  match f.req_moveset with
  | none => true
  | some sets => sets.any (fun filt => decide (move_1_id ∈ filt) && decide (move_2_id ∈ filt))

/-- `PokemonFilter.check_size` (Filters.py lines 329-333). -/
def check_size (f : PokemonFilter) (size : SizeV) : Bool :=
  match f.sizes with
  | none => true
  | some sizes => decide (size ∈ sizes)

/-- `PokemonFilter.check_gender` (Filters.py lines 335-339). -/
def check_gender (f : PokemonFilter) (gender : GenderV) : Bool :=
  match f.genders with
  | none => true
  | some genders => decide (gender ∈ genders)

/-- `PokemonFilter.check_form` (Filters.py lines 341-345). -/
def check_form (f : PokemonFilter) (form_id : ℤ) : Bool :=
  match f.forms with
  | none => true
  | some forms => decide (form_id ∈ forms)

/-- `PokemonFilter.check_rating_attack` (Filters.py lines 347-348):
`min_rating_attack >= rating_attack >= max_rating_attack` on letter grades. -/
def check_rating_attack (f : PokemonFilter) (rating_attack : Char) : Bool :=
  decide (rating_attack ≤ f.min_rating_attack) && decide (f.max_rating_attack ≤ rating_attack)

/-- `PokemonFilter.check_rating_defense` (Filters.py lines 350-351). -/
def check_rating_defense (f : PokemonFilter) (rating_defense : Char) : Bool :=
  decide (rating_defense ≤ f.min_rating_defense) && decide (f.max_rating_defense ≤ rating_defense)

/-- Stand-in for `filt.check_mention()` called at Manager.py line 756: the
method is absent from the snapshot's Filters.py (version skew between the
snapshot's files); it is modelled as the inert accessor of the carried
`mention` value, which never affects whether a filter matches. -/
def check_mention (f : PokemonFilter) : String :=
  f.mention

end PokemonFilter

/-- The fields of a normalised creature event that
`Manager.check_pokemon_filter` reads (Manager.py lines 497-511). `none`
models the missing-value sentinels (`'?'`, `'unknown'`, and for ratings also
`'-'`). -/
structure PokemonEvent where
  id : String
  pkmn_id : ℕ
  disappear_time : ℤ
  lat : ℚ := 0
  lng : ℚ := 0
  cp : Option ℤ := none
  level : Option ℤ := none
  iv : Option ℚ := none
  atk : Option ℤ := none
  defiv : Option ℤ := none
  sta : Option ℤ := none
  quick_id : Option ℤ := none
  charge_id : Option ℤ := none
  size : Option SizeV := none
  gender : Option GenderV := none
  form_id : Option ℤ := none
  rating_attack : Option Char := none
  rating_defense : Option Char := none
  mention : String := ""
deriving DecidableEq, Repr

namespace ManagerM

/-- Distance gate of one loop iteration of `Manager.check_pokemon_filter`
(Manager.py lines 516-528): with no location set (`dist == 'unkn'`) the
distance is not checked. -/
def distOk (f : PokemonFilter) (dist : PDist) : Bool :=
  match dist with
  | PDist.unkn => true
  | PDist.known d => f.check_dist d

/-- CP gate (Manager.py lines 530-546): a present value is range-checked; a
missing value rejects only when `needs_cp` and `ignore_missing` both hold. -/
def cpOk (f : PokemonFilter) (p : PokemonEvent) : Bool :=
  match p.cp with
  | some v => f.check_cp v
  | none => !(f.needs_cp && f.ignore_missing)

/-- Level gate (Manager.py lines 548-564). -/
def levelOk (f : PokemonFilter) (p : PokemonEvent) : Bool :=
  match p.level with
  | some v => f.check_level v
  | none => !(f.needs_level && f.ignore_missing)

/-- IV-percent gate (Manager.py lines 566-582). -/
def ivOk (f : PokemonFilter) (p : PokemonEvent) : Bool :=
  match p.iv with
  | some v => f.check_iv v
  | none => !(f.needs_iv && f.ignore_missing)

/-- Attack-IV gate (Manager.py lines 584-601). -/
def atkOk (f : PokemonFilter) (p : PokemonEvent) : Bool :=
  match p.atk with
  | some v => f.check_atk v
  | none => !(f.needs_atk && f.ignore_missing)

/-- Defense-IV gate (Manager.py lines 603-619). -/
def defivOk (f : PokemonFilter) (p : PokemonEvent) : Bool :=
  match p.defiv with
  | some v => f.check_defiv v
  | none => !(f.needs_defiv && f.ignore_missing)

/-- Stamina-IV gate (Manager.py lines 621-637). -/
def staOk (f : PokemonFilter) (p : PokemonEvent) : Bool :=
  match p.sta with
  | some v => f.check_sta v
  | none => !(f.needs_sta && f.ignore_missing)

/-- Quick-move gate (Manager.py lines 639-652); the companion needs-flag for
a set constraint is `req_quick_move is not None`. -/
def quickOk (f : PokemonFilter) (p : PokemonEvent) : Bool :=
  match p.quick_id with
  | some v => f.check_quick_move v
  | none => !(f.req_quick_move.isSome && f.ignore_missing)

/-- Charge-move gate (Manager.py lines 654-667). -/
def chargeOk (f : PokemonFilter) (p : PokemonEvent) : Bool :=
  match p.charge_id with
  | some v => f.check_charge_move v
  | none => !(f.req_charge_move.isSome && f.ignore_missing)

/-- Move-combination gate (Manager.py lines 669-682): checked only when both
move ids are present. -/
def movesetOk (f : PokemonFilter) (p : PokemonEvent) : Bool :=
  match p.quick_id, p.charge_id with
  | some q, some c => f.check_moveset q c
  | _, _ => !(f.req_moveset.isSome && f.ignore_missing)

/-- Size gate (Manager.py lines 684-697). -/
def sizeOk (f : PokemonFilter) (p : PokemonEvent) : Bool :=
  match p.size with
  | some v => f.check_size v
  | none => !(f.sizes.isSome && f.ignore_missing)

/-- Gender gate (Manager.py lines 699-712). -/
def genderOk (f : PokemonFilter) (p : PokemonEvent) : Bool :=
  match p.gender with
  | some v => f.check_gender v
  | none => !(f.genders.isSome && f.ignore_missing)

/-- Form gate (Manager.py lines 714-720): unlike every other gate, the
missing case has no rejecting branch — a missing form is always skipped. -/
def formOk (f : PokemonFilter) (p : PokemonEvent) : Bool :=
  match p.form_id with
  | some v => f.check_form v
  | none => true

/-- Attack-rating gate (Manager.py lines 722-737); the sentinels are
`'?'` and `'-'`, both modelled as `none`. -/
def ratingAtkOk (f : PokemonFilter) (p : PokemonEvent) : Bool :=
  match p.rating_attack with
  | some v => f.check_rating_attack v
  | none => !(f.needs_rating_attack && f.ignore_missing)

/-- Defense-rating gate (Manager.py lines 739-754). -/
def ratingDefOk (f : PokemonFilter) (p : PokemonEvent) : Bool :=
  match p.rating_defense with
  | some v => f.check_rating_defense v
  | none => !(f.needs_rating_defense && f.ignore_missing)

/-- One iteration of the filter loop in `Manager.check_pokemon_filter`
(Manager.py lines 513-761): every `continue` is a failure of one gate, so
the iteration passes exactly when all gates pass, in the source's order. -/
def filterChecksPass (f : PokemonFilter) (p : PokemonEvent) (dist : PDist) : Bool :=
  distOk f dist && cpOk f p && levelOk f p && ivOk f p && atkOk f p &&
    defivOk f p && staOk f p && quickOk f p && chargeOk f p && movesetOk f p &&
    sizeOk f p && genderOk f p && formOk f p && ratingAtkOk f p && ratingDefOk f p

/-- `Manager.check_pokemon_filter(filters, pkmn, dist)` (Manager.py lines
493-763): first-match over the ordered list of alternative filters, returning
`passed` and the `mention` value (the event's own on no match, the first
matching filter's `check_mention()` otherwise). -/
def check_pokemon_filter (filters : List PokemonFilter) (p : PokemonEvent)
    (dist : PDist) : Bool × String :=
  match filters with
  | [] => (false, p.mention)
  | f :: rest =>
    if filterChecksPass f p dist then (true, f.check_mention)
    else check_pokemon_filter rest p dist

end ManagerM

/-- `Utils.get_earth_dist(pt_a, pt_b)` (Utils.py lines 473-491): with no
reference location (`pt_b is None`) the result is the string `'unkn'`;
otherwise a haversine distance, abstracted here by the `calcDist` argument
(its trigonometry is irrelevant to every claim). -/
def get_earth_dist (calcDist : ℚ × ℚ → ℚ × ℚ → ℚ) (pt_a : ℚ × ℚ)
    (pt_b : Option (ℚ × ℚ)) : PDist :=
  match pt_b with
  | none => PDist.unkn
  | some b => PDist.known (calcDist pt_a b)

/-- `PokestopFilter` (Filters.py lines 532-538): only the base `Filter`
range. -/
structure PokestopFilter where
  min_dist : PFloat
  max_dist : PFloat
deriving DecidableEq, Repr

/-- `Filter.check_dist` for a pokestop filter (Filters.py lines 218-220). -/
def PokestopFilter.check_dist (f : PokestopFilter) (dist : ℚ) : Bool :=
  f.min_dist.leB (PFloat.fin dist) && (PFloat.fin dist).leB f.max_dist

/-- The filter loop of `Manager.process_pokestop` (Manager.py lines 981-1001):
a filter's single gate is the distance check, skipped when the manager has no
location. -/
def check_pokestop_filters (filters : List PokestopFilter) (dist : PDist) : Bool :=
  match filters with
  | [] => false
  | f :: rest =>
    if (match dist with
        | PDist.unkn => true
        | PDist.known d => f.check_dist d) then true
    else check_pokestop_filters rest dist

/-- `GymFilter` (Filters.py lines 541-560): base range plus the two faction
sets; team ids stand for their names (`create_team_list` resolves names to
ids and this model carries ids directly). -/
structure GymFilter where
  min_dist : PFloat
  max_dist : PFloat
  to_team : List ℕ
  from_team : List ℕ
deriving DecidableEq, Repr

/-- Defaults dict shape for `GymFilter.get_defaults()` and the `default`
argument of `GymFilter.__init__`. -/
structure GymDefaults where
  min_dist : PFloat
  max_dist : PFloat
  to_team : List ℕ
  from_team : List ℕ
deriving DecidableEq, Repr

/-- Settings dict passed to `GymFilter.__init__`; `none` means the key is
absent. -/
structure GymSettings where
  min_dist : Option PFloat := none
  max_dist : Option PFloat := none
  to_team : Option (List ℕ) := none
  from_team : Option (List ℕ) := none
deriving DecidableEq, Repr

namespace GymFilter

/-- `GymFilter.get_defaults()` (Filters.py lines 577-583). -/
def get_defaults : GymDefaults where
  min_dist := PFloat.fin 0
  max_dist := PFloat.inf
  to_team := [0, 1, 2, 3]
  from_team := [0, 1, 2, 3]

/-- `GymFilter.__init__(settings, default, location)` (Filters.py lines
544-554). Note the source's `else` branch for a missing `'from_team'` key
copies `default['to_team']`, not `default['from_team']`. -/
def fromSettings (s : GymSettings) (default : GymDefaults) : GymFilter where
  min_dist := orDefaultPF s.min_dist default.min_dist
  max_dist := orDefaultPF s.max_dist default.max_dist
  to_team := match s.to_team with
    | some l => l
    | none => default.to_team
  from_team := match s.from_team with
    | some l => l
    | none => default.to_team

/-- `GymFilter.check_from_team` (Filters.py lines 556-557). -/
def check_from_team (f : GymFilter) (team_id : ℕ) : Bool :=
  decide (team_id ∈ f.from_team)

/-- `GymFilter.check_to_team` (Filters.py lines 559-560). -/
def check_to_team (f : GymFilter) (team_id : ℕ) : Bool :=
  decide (team_id ∈ f.to_team)

/-- `Filter.check_dist` for a gym filter (Filters.py lines 218-220). -/
def check_dist (f : GymFilter) (dist : ℚ) : Bool :=
  f.min_dist.leB (PFloat.fin dist) && (PFloat.fin dist).leB f.max_dist

end GymFilter

/-- Modelled from the spec: a named polygon of the Geofence gate (spec
section 3 and 4.3); Geofence.py is not part of the snapshot. Vertices are
`(lat, lng)` pairs forming a simple ring. -/
structure Geofence where
  name : String
  vertices : List (ℚ × ℚ)

/-- Edges of the closed polygon ring (each vertex to its successor, last
back to first). -/
def ringEdges (l : List (ℚ × ℚ)) : List ((ℚ × ℚ) × (ℚ × ℚ)) :=
  match l with
  | [] => []
  | v :: _ => l.zip (l.drop 1 ++ [v])

/-- Modelled from the spec: one edge's crossing test of the standard
ray-casting (even-odd) rule in `Contains(polygon, lat, lng)` (spec section
4.3): the horizontal ray from the point toward smaller first coordinates
crosses the edge. -/
def edgeCrosses (p : ℚ × ℚ) (e : (ℚ × ℚ) × (ℚ × ℚ)) : Bool :=
  let x := p.1
  let y := p.2
  let a := e.1
  let b := e.2
  (decide (y < a.2) != decide (y < b.2)) &&
    decide (x < (b.1 - a.1) * (y - a.2) / (b.2 - a.2) + a.1)

/-- Modelled from the spec: `Contains(polygon, lat, lng)` by the even-odd
rule over the polygon edges (spec section 4.3); Geofence.py is not in the
snapshot. -/
def Geofence.containsB (gf : Geofence) (lat lng : ℚ) : Bool :=
  (ringEdges gf.vertices).foldl
    (fun inside e => if edgeCrosses (lat, lng) e then !inside else inside) false

/-- `Manager.check_geofences(name, lat, lng)` (Manager.py lines 1786-1795):
name of the first configured geofence containing the point, else
`'unknown'`. -/
def check_geofences (gfs : List Geofence) (lat lng : ℚ) : String :=
  match gfs with
  | [] => "unknown"
  | gf :: rest =>
    if gf.containsB lat lng then gf.name
    else check_geofences rest lat lng

/-- The geofence gate as used by every handler (for example Manager.py lines
844-848): the event is rejected when at least one geofence is configured and
the name lookup returned `'unknown'`. -/
def geofence_reject (gfs : List Geofence) (lat lng : ℚ) : Bool :=
  decide (0 < gfs.length) && (check_geofences gfs lat lng == "unknown")

/-- Modelled from the spec: the per-kind dedup store of the expiring Cache
(spec section 4.2, `key -> expiration`); Cache.py is not in the snapshot.
An association list stands for the dict. -/
abbrev ExpCache := List (String × ℤ)

/-- Modelled from the spec: `GetExpiration(kind, key)` (spec section 4.2). -/
def cacheGet (c : ExpCache) (k : String) : Option ℤ :=
  match c.find? (fun e => e.1 == k) with
  | none => none
  | some e => some e.2

/-- Modelled from the spec: `UpdateExpiration(kind, key, ts)` — created on
first sighting, overwritten on re-sighting (spec sections 3 and 4.2); dict
update replaces the entry for an existing key and adds the key otherwise. -/
def cacheSet (c : ExpCache) (k : String) (v : ℤ) : ExpCache :=
  match c with
  | [] => [(k, v)]
  | e :: rest => if e.1 == k then (k, v) :: rest else e :: cacheSet rest k v

/-- Modelled from the spec: `Sweep(now)` removes every entry whose expiration
is at or before `now` (spec section 4.2). -/
def cacheSweep (c : ExpCache) (now : ℤ) : ExpCache :=
  c.filter (fun e => decide (now < e.2))

/-- Modelled from the spec: the `point-of-interest id -> last known faction`
map of the Cache (spec sections 3 and 4.2); `none` is the `'?'` sentinel the
Manager compares against. -/
abbrev TeamCache := List (String × ℕ)

/-- Modelled from the spec: `GetFactionState` (spec section 4.2). -/
def teamGet (c : TeamCache) (k : String) : Option ℕ :=
  match c.find? (fun e => e.1 == k) with
  | none => none
  | some e => some e.2

/-- Modelled from the spec: `UpdateFactionState` (spec section 4.2); dict
update replaces the entry for an existing key and adds the key otherwise. -/
def teamSet (c : TeamCache) (k : String) (v : ℕ) : TeamCache :=
  match c with
  | [] => [(k, v)]
  | e :: rest => if e.1 == k then (k, v) :: rest else e :: teamSet rest k v

/-- The configuration of one Manager that `process_pokemon` consults: the
pokemon section built by `load_pokemon_section`, the minimum-time setting,
the reference location, the geofences, and the haversine kernel (abstracted;
see `get_earth_dist`). -/
structure PokemonCfg where
  enabled : Bool
  filters : List (ℕ × List PokemonFilter)
  time_limit : ℤ
  location : Option (ℚ × ℚ)
  geofences : List Geofence
  calcDist : ℚ × ℚ → ℚ × ℚ → ℚ

/-- Species lookup in the loaded filters map
(`pkmn_id not in self.__pokemon_settings['filters']`, Manager.py line 823). -/
def findSpecies (m : List (ℕ × List PokemonFilter)) (pkmn_id : ℕ) :
    Option (List PokemonFilter) :=
  match m.find? (fun e => e.1 == pkmn_id) with
  | none => none
  | some e => some e.2

/-- `Manager.process_pokemon(pkmn)` (Manager.py lines 793-952) up to the
dispatch decision, as a transition on the dedup cache returning whether the
event is fanned out to the sinks. Steps in source order: enabled gate
(line 796), dedup lookup (line 806), expiration write (line 810, reached
only on a cache miss), time-remaining gate (line 814), species-filter
presence (line 823), filter match (line 836), geofence gate (line 845).
The enrichment after the geofence gate only formats display fields and is
not modelled. -/
def process_pokemon (cfg : PokemonCfg) (cache : ExpCache) (now : ℤ)
    (p : PokemonEvent) : ExpCache × Bool :=
  if cfg.enabled = false then (cache, false)
  else if (cacheGet cache p.id).isSome then (cache, false)
  else
    let cache := cacheSet cache p.id p.disappear_time
    let seconds_left := p.disappear_time - now
    if seconds_left < cfg.time_limit then (cache, false)
    else
      match findSpecies cfg.filters p.pkmn_id with
      | none => (cache, false)
      | some filters =>
        let dist := get_earth_dist cfg.calcDist (p.lat, p.lng) cfg.location
        let passed := (ManagerM.check_pokemon_filter filters p dist).1
        if passed = false then (cache, false)
        else if geofence_reject cfg.geofences p.lat p.lng then (cache, false)
        else (cache, true)

/-- A dynamically-typed Python value, needed because the two webhook
normalisers in the snapshot give `is_in_battle` an int in one version and a
string in the other, and `process_gym_info` compares it with both. -/
inductive PyVal where
  | int (n : ℤ)
  | str (s : String)
deriving DecidableEq, Repr

/-- Python `==` between possibly differently-typed values: an int never
equals a string. -/
def pyEq : PyVal → PyVal → Bool
  | PyVal.int a, PyVal.int b => a == b
  | PyVal.str a, PyVal.str b => a == b
  | _, _ => false

/-- The fields of a normalised gym event that `process_gym_info` reads
(Manager.py lines 1178-1341). Display-only fields (name, description, url,
defenders, points, guard) are omitted: they never influence the dispatch
decision or the faction cache. -/
structure GymEvent where
  id : String
  new_team_id : ℕ
  is_in_battle : PyVal
  lat : ℚ
  lng : ℚ
  park : ℤ
  slots_available : ℤ
deriving DecidableEq, Repr

/-- The gym section built by `load_gym_section` (Filters.py lines 149-168):
exactly the keys `enabled`, `ignore_neutral` and `filters`. -/
structure GymCfg where
  enabled : Bool
  ignore_neutral : Bool
  filters : List GymFilter
deriving Repr

/-- The filter loop of `process_gym_info` (Manager.py lines 1222-1253): per
filter, distance gate (skipped without a location), then the old-faction and
new-faction set checks. -/
def check_gym_filters (filters : List GymFilter) (dist : PDist)
    (from_team_id to_team_id : ℕ) : Bool :=
  match filters with
  | [] => false
  | f :: rest =>
    if (match dist with
        | PDist.unkn => true
        | PDist.known d => f.check_dist d)
        && f.check_from_team from_team_id
        && f.check_to_team to_team_id then true
    else check_gym_filters rest dist from_team_id to_team_id

/-- `Manager.process_gym_info(gym_info)` (Manager.py lines 1178-1341) up to
the dispatch decision, as a transition on the last-known-faction cache.
Steps in source order: neutral-change suppression (line 1190, comparing
`is_in_battle` with the string `"False"`), faction-cache write (line 1195),
enabled gate (line 1198), no-change suppression (line 1206, only when
`is_in_battle == 0`), first-sighting suppression (line 1211, `'?'` sentinel
is `none`), filter loop, geofence gate (line 1260) and the second, redundant
containment check (lines 1265-1272). `park_check` is read from the gym
settings at line 1278 but `load_gym_section` in this snapshot never stores
that key (version skew between the snapshot's files); it is passed here as
an explicit value and only feeds a display string. -/
def process_gym_info (cfg : GymCfg) (park_check : Bool)
    (geofences : List Geofence) (location : Option (ℚ × ℚ))
    (calcDist : ℚ × ℚ → ℚ × ℚ → ℚ) (teams : TeamCache) (e : GymEvent) :
    TeamCache × Bool :=
  let from_team := teamGet teams e.id
  if cfg.ignore_neutral && e.new_team_id == 0
      && pyEq e.is_in_battle (PyVal.str "False") then (teams, false)
  else
    let teams := teamSet teams e.id e.new_team_id
    if cfg.enabled = false then (teams, false)
    else if (match from_team with
             | some t => t == e.new_team_id
             | none => false)
        && pyEq e.is_in_battle (PyVal.int 0) then (teams, false)
    else
      match from_team with
      | none => (teams, false)
      | some from_team_id =>
        let dist := get_earth_dist calcDist (e.lat, e.lng) location
        if check_gym_filters cfg.filters dist from_team_id e.new_team_id
            = false then (teams, false)
        else if geofence_reject geofences e.lat e.lng then (teams, false)
        else if decide (0 < geofences.length)
            && !(geofences.any (fun gf => gf.containsB e.lat e.lng)) then
          (teams, false)
        else
          let _park : String :=
            if park_check && decide (e.park ≠ 0) then
              "***This Gym Is A Possible EX Raid Location***"
            else ""
          (teams, true)

/-- One top-level section of a parsed filters file, as `load_filter_file`
consumes it. `absent` means the key is missing: `require_and_remove_key`
(Utils.py lines 64-71) raises an ordinary exception, which the handlers in
`load_filter_file` catch. `exits` means the section is present but contains
a definition on which its loader calls `sys.exit(1)` (Filters.py lines 43,
61, 95, 107, 110, 442, 451, 485, 514, 528, and 83 for the named-filter
expansion that runs first): `SystemExit` derives from `BaseException`, so
the `except ValueError/IOError/Exception` handlers cannot catch it and the
process dies even during hot-reload. `good` is a section that loads, its
parsed settings standing in as a payload. -/
inductive SectionVal where
  | absent
  | exits
  | good (payload : String)
deriving DecidableEq, Repr

/-- Outcome of reading and JSON-parsing a watched config file: an I/O error,
a file that is not well-formed JSON (for example caught mid-write), or a
parsed JSON object with its six top-level sections. -/
inductive FileRead where
  | ioError
  | badJson
  | content (pokemon pokestops gyms eggs raids weather : SectionVal)
deriving DecidableEq, Repr

/-- The six per-kind settings slots of a Manager
(`self.__pokemon_settings` through `self.__weather_settings`,
Manager.py lines 86-91); `none` is the empty `{}` placeholder. -/
structure FilterSettingsState where
  pokemon_settings : Option String
  pokestop_settings : Option String
  gym_settings : Option String
  egg_settings : Option String
  raid_settings : Option String
  weather_settings : Option String
deriving DecidableEq, Repr

/-- The cleared slots written at Manager.py lines 143-148 before a filter
reload. -/
def emptyFilterSettings : FilterSettingsState where
  pokemon_settings := none
  pokestop_settings := none
  gym_settings := none
  egg_settings := none
  raid_settings := none
  weather_settings := none

/-- How a call to `load_filter_file` ends: full success, a caught error
(`return False`), or process exit — `sys.exit(1)` when `startup`, or an
uncatchable `SystemExit` raised inside a section loader at any time. -/
inductive LoadOutcome where
  | ok
  | failed
  | fatal
deriving DecidableEq, Repr

/-- `Manager.load_filter_file(file_path, startup)` (Manager.py lines
199-259): the six sections are required and assigned in source order
(pokemon, pokestops, gyms, eggs, raids, weather). A missing section makes
`require_and_remove_key` raise, the `except` handlers catch it, and the
call exits at startup or returns `False` at runtime, the sections already
assigned staying assigned. A section whose loader calls `sys.exit(1)`
(see `SectionVal.exits`) raises `SystemExit`, which those handlers cannot
catch (Manager.py lines 238-255 catch `ValueError`, `IOError` and
`Exception` only), so the process dies regardless of `startup`. -/
def load_filter_file (st : FilterSettingsState) (file : FileRead)
    (startup : Bool) : FilterSettingsState × LoadOutcome :=
  let fail := fun (s : FilterSettingsState) =>
    (s, if startup then LoadOutcome.fatal else LoadOutcome.failed)
  match file with
  | FileRead.ioError => fail st
  | FileRead.badJson => fail st
  | FileRead.content pokemon pokestops gyms eggs raids weather =>
    match pokemon with
    | SectionVal.absent => fail st
    | SectionVal.exits => (st, LoadOutcome.fatal)
    | SectionVal.good pk =>
      let st := { st with pokemon_settings := some pk }
      match pokestops with
      | SectionVal.absent => fail st
      | SectionVal.exits => (st, LoadOutcome.fatal)
      | SectionVal.good ps =>
        let st := { st with pokestop_settings := some ps }
        match gyms with
        | SectionVal.absent => fail st
        | SectionVal.exits => (st, LoadOutcome.fatal)
        | SectionVal.good gy =>
          let st := { st with gym_settings := some gy }
          match eggs with
          | SectionVal.absent => fail st
          | SectionVal.exits => (st, LoadOutcome.fatal)
          | SectionVal.good eg =>
            let st := { st with egg_settings := some eg }
            match raids with
            | SectionVal.absent => fail st
            | SectionVal.exits => (st, LoadOutcome.fatal)
            | SectionVal.good ra =>
              let st := { st with raid_settings := some ra }
              match weather with
              | SectionVal.absent => fail st
              | SectionVal.exits => (st, LoadOutcome.fatal)
              | SectionVal.good we =>
                ({ st with weather_settings := some we }, LoadOutcome.ok)

/-- How one poll of the watched filters file ends for the Manager process:
the loop continues to the next poll with the given settings and stored
timestamp, or the process has died from an uncaught `SystemExit`. -/
inductive ReloadResult where
  | next (st : FilterSettingsState) (tstamp : Option ℤ)
  | exited
deriving DecidableEq, Repr

/-- The `Filters` branch of `Manager.check_updated_config_files`
(Manager.py lines 119-170) for one poll of the watched filters file:
`tstamp` is the stored modification time (`none` on the first check),
`mtime` the current one. If the file's JSON test parse fails the state and
stored timestamp are left alone (retry next poll). Otherwise the six
settings slots are cleared (lines 143-148) and `load_filter_file` runs with
`startup=False`: on success the stored timestamp is advanced; on a caught
failure the timestamp is kept (retry) with the slots left cleared; on an
uncaught `SystemExit` the Manager process dies (the call site at
Manager.py line 422 is outside any `try`). -/
def check_updated_filters (st : FilterSettingsState) (tstamp : Option ℤ)
    (mtime : ℤ) (file : FileRead) : ReloadResult :=
  if tstamp == some mtime then ReloadResult.next st tstamp
  else
    match tstamp with
    | none => ReloadResult.next st (some mtime)
    | some _ =>
      match file with
      | FileRead.ioError => ReloadResult.next st tstamp
      | FileRead.badJson => ReloadResult.next st tstamp
      | FileRead.content pokemon pokestops gyms eggs raids weather =>
        let r := load_filter_file emptyFilterSettings
          (FileRead.content pokemon pokestops gyms eggs raids weather) false
        match r.2 with
        | LoadOutcome.ok => ReloadResult.next r.1 (some mtime)
        | LoadOutcome.failed => ReloadResult.next r.1 tstamp
        | LoadOutcome.fatal => ReloadResult.exited

/-- The egg section built by `load_egg_section` (Filters.py lines 171-185):
level and distance bounds. The `enabled` flag and the gym-name list that
`process_egg` reads elsewhere are not part of the range check. -/
structure EggSection where
  min_level : ℤ
  max_level : ℤ
  min_dist : PFloat
  max_dist : PFloat
deriving DecidableEq, Repr

/-- `Manager.check_egg_filter(settings, egg)` (Manager.py lines 765-791):
the level bounds first, then the distance range, the latter skipped when
the manager has no location (`egg['dist'] == 'unkn'`). -/
def check_egg_filter (s : EggSection) (raid_level : ℤ) (dist : PDist) : Bool :=
  if raid_level < s.min_level then false
  else if s.max_level < raid_level then false
  else
    match dist with
    | PDist.unkn => true
    | PDist.known d =>
      if (s.min_dist.leB (PFloat.fin d) && (PFloat.fin d).leB s.max_dist) = false
        then false
      else true

/-- Modelled from the spec: a weather filter as built by
`load_weather_section` (imported by Manager.py but absent from the
snapshot's Filters.py); per spec section 3 a base filter carries the
distance range. The loop below that consumes it is from source. -/
structure WeatherFilter where
  min_dist : PFloat
  max_dist : PFloat
deriving DecidableEq, Repr

/-- `Filter.check_dist` for a weather filter (Filters.py lines 218-220). -/
def WeatherFilter.check_dist (f : WeatherFilter) (dist : ℚ) : Bool :=
  f.min_dist.leB (PFloat.fin dist) && (PFloat.fin dist).leB f.max_dist

/-- The filter loop of `Manager.process_weather` (Manager.py lines
1677-1697): per filter the only gate is the distance check, skipped when
the manager has no location. -/
def check_weather_filters (filters : List WeatherFilter) (dist : PDist) : Bool :=
  match filters with
  | [] => false
  | f :: rest =>
    if (match dist with
        | PDist.unkn => true
        | PDist.known d => f.check_dist d) then true
    else check_weather_filters rest dist

/-! Helper lemmas shared by several claims. -/

/-- After a dict update the updated key maps to the written value. -/
theorem cacheGet_cacheSet_self (c : ExpCache) (k : String) (v : ℤ) :
    cacheGet (cacheSet c k v) k = some v := by
  induction c with
  | nil => simp [cacheSet, cacheGet]
  | cons e rest ih =>
    by_cases h : e.1 == k
    · simp [cacheSet, h, cacheGet]
    · simpa [cacheSet, h, cacheGet, List.find?] using ih

/-- After a faction update the updated key maps to the written faction. -/
theorem teamGet_teamSet_self (c : TeamCache) (k : String) (v : ℕ) :
    teamGet (teamSet c k v) k = some v := by
  induction c with
  | nil => simp [teamSet, teamGet]
  | cons e rest ih =>
    by_cases h : e.1 == k
    · simp [teamSet, h, teamGet]
    · simpa [teamSet, h, teamGet, List.find?] using ih

/-- A dispatching run of `process_pokemon` leaves the cache with the event's
key mapped to the event's expiration. -/
theorem process_pokemon_cache_of_dispatch (cfg : PokemonCfg) (cache : ExpCache)
    (now : ℤ) (p : PokemonEvent) :
    (process_pokemon cfg cache now p).2 = true →
    (process_pokemon cfg cache now p).1 = cacheSet cache p.id p.disappear_time := by
  unfold process_pokemon
  split
  · intro h
    simp at h
  · split
    · intro h
      simp at h
    · simp only
      split
      · intro h
        simp at h
      · split
        · intro h
          simp at h
        · split
          · intro h
            simp at h
          · split
            · intro h
              simp at h
            · intro h2
              rfl

/-- A run of `process_pokemon` on an event whose key is already cached does
not dispatch and leaves the cache unchanged. -/
theorem process_pokemon_hit (cfg : PokemonCfg) (cache : ExpCache) (now : ℤ)
    (p : PokemonEvent) (h : (cacheGet cache p.id).isSome = true) :
    process_pokemon cfg cache now p = (cache, false) := by
  unfold process_pokemon
  split
  · rfl
  · simp [h]

/-- C1: as stated the claim fails on the code. `process_pokemon` (Manager.py
lines 805-811) returns on a dedup hit before the expiration update, so a
repeated event does not dispatch but also leaves the stored expiration
unchanged: with key `"abc"` cached at expiration 100, a repeat carrying
expiration 200 is a no-op and the cache still stores 100, not 200. -/
theorem C1_counterexample :
    process_pokemon ⟨true, [], 0, none, [], fun _ _ => 0⟩ [("abc", 100)] 0
        { id := "abc", pkmn_id := 1, disappear_time := 200 }
      = ([("abc", 100)], false)
    ∧ cacheGet [("abc", 100)] "abc" = some 100
    ∧ ((100 : ℤ) = 200 → False) := by
  refine ⟨?_, by decide, by decide⟩
  have h : (cacheGet [("abc", 100)] "abc").isSome = true := by decide
  exact process_pokemon_hit _ _ _ _ h

/-- C1 (amended): for an event whose identity key is already in the dedup
cache, `process_pokemon` neither dispatches nor touches the cache (the
stored expiration is written only when the key was absent), and once a run
has dispatched an event, any later run for the same identity key does not
dispatch again (until the entry is removed, for example by `cacheSweep`). -/
theorem C1_theorem (cfg cfg2 : PokemonCfg) (cache : ExpCache) (now now2 : ℤ)
    (p p2 : PokemonEvent) :
    ((cacheGet cache p.id).isSome = true →
      process_pokemon cfg cache now p = (cache, false))
    ∧ ((process_pokemon cfg cache now p).2 = true → p2.id = p.id →
      (process_pokemon cfg2 (process_pokemon cfg cache now p).1 now2 p2).2 = false) := by
  constructor
  · intro h
    exact process_pokemon_hit cfg cache now p h
  · intro hdisp hid
    have hc := process_pokemon_cache_of_dispatch cfg cache now p hdisp
    have hget : (cacheGet (process_pokemon cfg cache now p).1 p2.id).isSome = true := by
      rw [hc, hid, cacheGet_cacheSet_self]
      rfl
    rw [process_pokemon_hit cfg2 _ now2 p2 hget]

/-- C1 witness: the amended theorem applied to a concrete cached event. -/
theorem C1_witness :
    process_pokemon ⟨true, [], 0, none, [], fun _ _ => 0⟩ [("k", 5)] 0
        { id := "k", pkmn_id := 7, disappear_time := 9 }
      = ([("k", 5)], false) :=
  (C1_theorem ⟨true, [], 0, none, [], fun _ _ => 0⟩
      ⟨true, [], 0, none, [], fun _ _ => 0⟩ [("k", 5)] 0 0
      { id := "k", pkmn_id := 7, disappear_time := 9 }
      { id := "k", pkmn_id := 7, disappear_time := 9 }).1 (by decide)

/-- C2: as stated the claim fails on the code. Neither `Filter.__init__` nor
`PokemonFilter.__init__` checks `min <= max`: a settings dict with
`min_dist = 5, max_dist = 1` constructs successfully and the resulting
filter violates the invariant. -/
theorem C2_counterexample :
    (PokemonFilter.fromSettings
        { min_dist := some (PFloat.fin 5), max_dist := some (PFloat.fin 1) }
        PokemonFilter.get_defaults).min_dist = PFloat.fin 5
    ∧ (PokemonFilter.fromSettings
        { min_dist := some (PFloat.fin 5), max_dist := some (PFloat.fin 1) }
        PokemonFilter.get_defaults).max_dist = PFloat.fin 1
    ∧ PFloat.leB (PFloat.fin 5) (PFloat.fin 1) = false := by
  refine ⟨rfl, rfl, by decide⟩

/-- C2 (amended): when keys are omitted each range does default to the
widest possible range (the full schema domain), but `min <= max` is not
enforced at construction — a settings dict with `min_dist > max_dist` is
accepted and stored as given. -/
theorem C2_theorem :
    PokemonFilter.fromSettings {} PokemonFilter.get_defaults =
      { min_dist := PFloat.fin 0, max_dist := PFloat.inf,
        ignore_missing := false,
        min_cp := 0, max_cp := 9223372036854775807, needs_cp := false,
        min_level := 0, max_level := 40, needs_level := false,
        min_iv := 0, max_iv := 100, needs_iv := false,
        min_atk := 0, max_atk := 15, needs_atk := false,
        min_defiv := 0, max_defiv := 15, needs_defiv := false,
        min_sta := 0, max_sta := 15, needs_sta := false,
        sizes := none, genders := none, forms := none,
        req_quick_move := none, req_charge_move := none, req_moveset := none,
        min_rating_attack := 'F', max_rating_attack := 'A',
        needs_rating_attack := false,
        min_rating_defense := 'F', max_rating_defense := 'A',
        needs_rating_defense := false,
        mention := "" }
    ∧ (PokemonFilter.fromSettings
        { min_dist := some (PFloat.fin 5), max_dist := some (PFloat.fin 1) }
        PokemonFilter.get_defaults).min_dist = PFloat.fin 5
    ∧ (PokemonFilter.fromSettings
        { min_dist := some (PFloat.fin 5), max_dist := some (PFloat.fin 1) }
        PokemonFilter.get_defaults).max_dist = PFloat.fin 1 := by
  refine ⟨by decide, rfl, rfl⟩

/-- C3: as stated the claim fails on the code, in two ways. A watched
filters file that parses as JSON but fails structural validation through a
caught exception (here: missing the required `pokemon` section) is retried
and not fatal, but the previously loaded configuration is NOT retained: the
six settings slots were cleared before `load_filter_file` ran (Manager.py
lines 143-151), leaving the Manager with empty settings. And a JSON-valid
file containing a filter definition on which a section loader calls
`sys.exit(1)` IS fatal at runtime: `SystemExit` escapes the `except`
handlers and the Manager process dies. -/
theorem C3_counterexample :
    check_updated_filters ⟨some "P", some "S", some "G", some "E", some "R", some "W"⟩
        (some 1) 2 (FileRead.content SectionVal.absent (SectionVal.good "s")
          (SectionVal.good "g") (SectionVal.good "e") (SectionVal.good "r")
          (SectionVal.good "w"))
      = ReloadResult.next emptyFilterSettings (some 1)
    ∧ emptyFilterSettings ≠
        (⟨some "P", some "S", some "G", some "E", some "R", some "W"⟩ :
          FilterSettingsState)
    ∧ check_updated_filters ⟨some "P", some "S", some "G", some "E", some "R", some "W"⟩
        (some 1) 2 (FileRead.content (SectionVal.good "p") SectionVal.exits
          (SectionVal.good "g") (SectionVal.good "e") (SectionVal.good "r")
          (SectionVal.good "w"))
      = ReloadResult.exited := by
  refine ⟨by decide, by decide, by decide⟩

/-- C3 (amended): during hot-reload a file that fails to parse as JSON
leaves both the configuration state and the watched timestamp unchanged, so
it is retried on the next poll and is not fatal. A file that parses but
fails structural validation through a caught exception (a missing required
section) is likewise retried (timestamp not advanced) and not fatal, but
the previous configuration is not retained — the settings slots end up
cleared, with only the sections before the failure point re-populated. A
file that parses but contains a filter definition on which a section loader
calls `sys.exit(1)` is fatal even at runtime: the `SystemExit` is not
caught and the Manager process exits. -/
theorem C3_theorem (st : FilterSettingsState) (t mtime : ℤ) (pk : String)
    (b c d e f : SectionVal) :
    (check_updated_filters st (some t) mtime FileRead.badJson
      = ReloadResult.next st (some t))
    ∧ (check_updated_filters st (some t) mtime FileRead.ioError
      = ReloadResult.next st (some t))
    ∧ (t ≠ mtime →
        check_updated_filters st (some t) mtime
            (FileRead.content SectionVal.absent b c d e f)
          = ReloadResult.next emptyFilterSettings (some t))
    ∧ (t ≠ mtime →
        check_updated_filters st (some t) mtime
            (FileRead.content (SectionVal.good pk) SectionVal.exits c d e f)
          = ReloadResult.exited) := by
  refine ⟨?_, ?_, ?_, ?_⟩
  · unfold check_updated_filters
    split <;> rfl
  · unfold check_updated_filters
    split <;> rfl
  · intro h
    have hb : ((some t : Option ℤ) == some mtime) = false := by
      simp [h]
    simp only [check_updated_filters, hb, Bool.false_eq_true, if_false]
    rfl
  · intro h
    have hb : ((some t : Option ℤ) == some mtime) = false := by
      simp [h]
    simp only [check_updated_filters, hb, Bool.false_eq_true, if_false]
    rfl

/-- C3 witness: the amended theorem applied to a concrete changed file
lacking the `pokemon` section (retried, cleared) and to one whose
`pokestops` section exits its loader (process death). -/
theorem C3_witness :
    check_updated_filters ⟨some "P", some "S", some "G", some "E", some "R", some "W"⟩
        (some 1) 2 (FileRead.content SectionVal.absent (SectionVal.good "s")
          SectionVal.absent SectionVal.absent SectionVal.absent SectionVal.absent)
      = ReloadResult.next emptyFilterSettings (some 1)
    ∧ check_updated_filters ⟨some "P", some "S", some "G", some "E", some "R", some "W"⟩
        (some 1) 2 (FileRead.content (SectionVal.good "p") SectionVal.exits
          SectionVal.absent SectionVal.absent SectionVal.absent SectionVal.absent)
      = ReloadResult.exited :=
  ⟨(C3_theorem ⟨some "P", some "S", some "G", some "E", some "R", some "W"⟩ 1 2
      "p" (SectionVal.good "s") SectionVal.absent SectionVal.absent
      SectionVal.absent SectionVal.absent).2.2.1 (by decide),
   (C3_theorem ⟨some "P", some "S", some "G", some "E", some "R", some "W"⟩ 1 2
      "p" (SectionVal.good "s") SectionVal.absent SectionVal.absent
      SectionVal.absent SectionVal.absent).2.2.2 (by decide)⟩

/-- C4: as stated the claim fails on the code. The no-change suppression in
`process_gym_info` (Manager.py line 1206) only fires when
`is_in_battle == 0`: a later sighting of gym `"g"` whose faction (1) equals
the last known faction but which is flagged in battle (`is_in_battle = 1`)
passes every gate and dispatches. -/
theorem C4_counterexample :
    teamGet [("g", 1)] "g" = some 1
    ∧ process_gym_info ⟨true, false, [GymFilter.fromSettings {} GymFilter.get_defaults]⟩
        false [] none (fun _ _ => 0) [("g", 1)]
        { id := "g", new_team_id := 1, is_in_battle := PyVal.int 1,
          lat := 0, lng := 0, park := 0, slots_available := 6 }
      = ([("g", 1)], true) := by
  refine ⟨by decide, by decide⟩

/-- C4 (amended): a first-ever sighting of a gym never dispatches; a later
sighting whose faction equals the last known faction does not dispatch
provided its `is_in_battle` field is the integer 0; a later sighting whose
faction differs dispatches (exactly once for that processing run) whenever
notifications are enabled, the neutral-suppression does not fire, some
filter accepts the transition and the geofence checks pass — and an
immediately repeated delivery of the same update (not in battle) is then
suppressed, because the faction cache now holds the new faction. -/
theorem C4_theorem (cfg cfg2 : GymCfg) (pc pc2 : Bool)
    (gfs gfs2 : List Geofence) (loc loc2 : Option (ℚ × ℚ))
    (cd cd2 : ℚ × ℚ → ℚ × ℚ → ℚ) (teams : TeamCache) (e e2 : GymEvent) :
    (teamGet teams e.id = none →
      (process_gym_info cfg pc gfs loc cd teams e).2 = false)
    ∧ (∀ t, teamGet teams e.id = some t → t = e.new_team_id →
        e.is_in_battle = PyVal.int 0 →
        (process_gym_info cfg pc gfs loc cd teams e).2 = false)
    ∧ (∀ t, teamGet teams e.id = some t → t ≠ e.new_team_id →
        (cfg.ignore_neutral && (e.new_team_id == 0)
          && pyEq e.is_in_battle (PyVal.str "False")) = false →
        cfg.enabled = true →
        check_gym_filters cfg.filters
            (get_earth_dist cd (e.lat, e.lng) loc) t e.new_team_id = true →
        geofence_reject gfs e.lat e.lng = false →
        (decide (0 < gfs.length)
          && !(gfs.any (fun gf => gf.containsB e.lat e.lng))) = false →
        process_gym_info cfg pc gfs loc cd teams e
            = (teamSet teams e.id e.new_team_id, true)
          ∧ (e2.id = e.id → e2.new_team_id = e.new_team_id →
              e2.is_in_battle = PyVal.int 0 →
              (process_gym_info cfg2 pc2 gfs2 loc2 cd2
                (teamSet teams e.id e.new_team_id) e2).2 = false)) := by
  refine ⟨?_, ?_, ?_⟩
  · intro h
    simp only [process_gym_info, h]
    split
    · rfl
    · simp
  · intro t h1 h2 h3
    simp only [process_gym_info, h1, h2, h3, pyEq]
    split
    · rfl
    · simp
  · intro t h1 h2 h3 h4 h5 h6 h7
    have hne : (t == e.new_team_id) = false := by
      simp [h2]
    constructor
    · simp only [process_gym_info, h1, h3, hne, h4, h5, h6, h7]
      simp [h3, h4, h5, h6, h7]
    · intro g1 g2 g3
      have hb : teamGet (teamSet teams e.id e.new_team_id) e2.id
          = some e2.new_team_id := by
        rw [g1, g2, teamGet_teamSet_self]
      simp only [process_gym_info, hb, g3, pyEq]
      split
      · rfl
      · simp

/-- C5: as stated the claim fails on the code for the form field. A filter
whose form constraint differs from the schema default (`forms = {0}`) and
whose `ignore_missing` is true still passes an event with a missing form:
the form gate (Manager.py lines 714-720) has no rejecting branch for a
missing value, unlike every other checked field. -/
theorem C5_counterexample :
    (PokemonFilter.fromSettings { form := some [0], ignore_missing := some true }
        PokemonFilter.get_defaults).forms.isSome = true
    ∧ (PokemonFilter.fromSettings { form := some [0], ignore_missing := some true }
        PokemonFilter.get_defaults).ignore_missing = true
    ∧ (PokemonEvent.form_id
        { id := "x", pkmn_id := 1, disappear_time := 0, cp := some 10,
          level := some 10, iv := some 50, atk := some 10, defiv := some 10,
          sta := some 10, quick_id := some 1, charge_id := some 2,
          size := some SizeV.N, gender := some GenderV.male,
          rating_attack := some 'C', rating_defense := some 'C' }) = none
    ∧ ManagerM.filterChecksPass
        (PokemonFilter.fromSettings { form := some [0], ignore_missing := some true }
          PokemonFilter.get_defaults)
        { id := "x", pkmn_id := 1, disappear_time := 0, cp := some 10,
          level := some 10, iv := some 50, atk := some 10, defiv := some 10,
          sta := some 10, quick_id := some 1, charge_id := some 2,
          size := some SizeV.N, gender := some GenderV.male,
          rating_attack := some 'C', rating_defense := some 'C' }
        PDist.unkn = true := by
  refine ⟨by decide, by decide, rfl, by decide⟩

/-- C5 (amended): for every checked field except form, a missing event value
makes that filter reject outright exactly when the field's needs-flag (for
set constraints: the constraint being configured) and `ignore_missing` both
hold, and otherwise the check is skipped (it cannot fail); a missing form is
always skipped, never rejecting, whatever the configuration. The `needs_*`
flags of a constructed filter hold exactly when the stored constraint
differs from the schema default. -/
theorem C5_theorem :
    (∀ (f : PokemonFilter) (p : PokemonEvent) (d : PDist),
      (p.cp = none → (f.needs_cp && f.ignore_missing) = true →
        ManagerM.filterChecksPass f p d = false)
      ∧ (p.cp = none → (f.needs_cp && f.ignore_missing) = false →
          ManagerM.cpOk f p = true)
      ∧ (p.level = none → (f.needs_level && f.ignore_missing) = true →
          ManagerM.filterChecksPass f p d = false)
      ∧ (p.level = none → (f.needs_level && f.ignore_missing) = false →
          ManagerM.levelOk f p = true)
      ∧ (p.iv = none → (f.needs_iv && f.ignore_missing) = true →
          ManagerM.filterChecksPass f p d = false)
      ∧ (p.iv = none → (f.needs_iv && f.ignore_missing) = false →
          ManagerM.ivOk f p = true)
      ∧ (p.atk = none → (f.needs_atk && f.ignore_missing) = true →
          ManagerM.filterChecksPass f p d = false)
      ∧ (p.atk = none → (f.needs_atk && f.ignore_missing) = false →
          ManagerM.atkOk f p = true)
      ∧ (p.defiv = none → (f.needs_defiv && f.ignore_missing) = true →
          ManagerM.filterChecksPass f p d = false)
      ∧ (p.defiv = none → (f.needs_defiv && f.ignore_missing) = false →
          ManagerM.defivOk f p = true)
      ∧ (p.sta = none → (f.needs_sta && f.ignore_missing) = true →
          ManagerM.filterChecksPass f p d = false)
      ∧ (p.sta = none → (f.needs_sta && f.ignore_missing) = false →
          ManagerM.staOk f p = true)
      ∧ (p.quick_id = none → (f.req_quick_move.isSome && f.ignore_missing) = true →
          ManagerM.filterChecksPass f p d = false)
      ∧ (p.quick_id = none → (f.req_quick_move.isSome && f.ignore_missing) = false →
          ManagerM.quickOk f p = true)
      ∧ (p.charge_id = none → (f.req_charge_move.isSome && f.ignore_missing) = true →
          ManagerM.filterChecksPass f p d = false)
      ∧ (p.charge_id = none → (f.req_charge_move.isSome && f.ignore_missing) = false →
          ManagerM.chargeOk f p = true)
      ∧ ((p.quick_id = none ∨ p.charge_id = none) →
          (f.req_moveset.isSome && f.ignore_missing) = true →
          ManagerM.filterChecksPass f p d = false)
      ∧ ((p.quick_id = none ∨ p.charge_id = none) →
          (f.req_moveset.isSome && f.ignore_missing) = false →
          ManagerM.movesetOk f p = true)
      ∧ (p.size = none → (f.sizes.isSome && f.ignore_missing) = true →
          ManagerM.filterChecksPass f p d = false)
      ∧ (p.size = none → (f.sizes.isSome && f.ignore_missing) = false →
          ManagerM.sizeOk f p = true)
      ∧ (p.gender = none → (f.genders.isSome && f.ignore_missing) = true →
          ManagerM.filterChecksPass f p d = false)
      ∧ (p.gender = none → (f.genders.isSome && f.ignore_missing) = false →
          ManagerM.genderOk f p = true)
      ∧ (p.rating_attack = none → (f.needs_rating_attack && f.ignore_missing) = true →
          ManagerM.filterChecksPass f p d = false)
      ∧ (p.rating_attack = none → (f.needs_rating_attack && f.ignore_missing) = false →
          ManagerM.ratingAtkOk f p = true)
      ∧ (p.rating_defense = none → (f.needs_rating_defense && f.ignore_missing) = true →
          ManagerM.filterChecksPass f p d = false)
      ∧ (p.rating_defense = none → (f.needs_rating_defense && f.ignore_missing) = false →
          ManagerM.ratingDefOk f p = true)
      ∧ (p.form_id = none → ManagerM.formOk f p = true))
    ∧ (∀ (s : PokemonSettings) (dd : PokemonDefaults),
      ((PokemonFilter.fromSettings s dd).needs_cp = true ↔
        ((PokemonFilter.fromSettings s dd).min_cp ≠ PokemonFilter.get_defaults.min_cp
          ∨ (PokemonFilter.fromSettings s dd).max_cp ≠ PokemonFilter.get_defaults.max_cp))
      ∧ ((PokemonFilter.fromSettings s dd).needs_level = true ↔
        ((PokemonFilter.fromSettings s dd).min_level ≠ PokemonFilter.get_defaults.min_level
          ∨ (PokemonFilter.fromSettings s dd).max_level ≠ PokemonFilter.get_defaults.max_level))
      ∧ ((PokemonFilter.fromSettings s dd).needs_iv = true ↔
        ((PokemonFilter.fromSettings s dd).min_iv ≠ PokemonFilter.get_defaults.min_iv
          ∨ (PokemonFilter.fromSettings s dd).max_iv ≠ PokemonFilter.get_defaults.max_iv))
      ∧ ((PokemonFilter.fromSettings s dd).needs_atk = true ↔
        ((PokemonFilter.fromSettings s dd).min_atk ≠ PokemonFilter.get_defaults.min_atk
          ∨ (PokemonFilter.fromSettings s dd).max_atk ≠ PokemonFilter.get_defaults.max_atk))
      ∧ ((PokemonFilter.fromSettings s dd).needs_defiv = true ↔
        ((PokemonFilter.fromSettings s dd).min_defiv ≠ PokemonFilter.get_defaults.min_defiv
          ∨ (PokemonFilter.fromSettings s dd).max_defiv ≠ PokemonFilter.get_defaults.max_defiv))
      ∧ ((PokemonFilter.fromSettings s dd).needs_sta = true ↔
        ((PokemonFilter.fromSettings s dd).min_sta ≠ PokemonFilter.get_defaults.min_sta
          ∨ (PokemonFilter.fromSettings s dd).max_sta ≠ PokemonFilter.get_defaults.max_sta))
      ∧ ((PokemonFilter.fromSettings s dd).needs_rating_attack = true ↔
        ((PokemonFilter.fromSettings s dd).min_rating_attack
            ≠ PokemonFilter.get_defaults.min_rating_attack
          ∨ (PokemonFilter.fromSettings s dd).max_rating_attack
            ≠ PokemonFilter.get_defaults.max_rating_attack))
      ∧ ((PokemonFilter.fromSettings s dd).needs_rating_defense = true ↔
        ((PokemonFilter.fromSettings s dd).min_rating_defense
            ≠ PokemonFilter.get_defaults.min_rating_defense
          ∨ (PokemonFilter.fromSettings s dd).max_rating_defense
            ≠ PokemonFilter.get_defaults.max_rating_defense))) := by
  constructor
  · intro f p d
    refine ⟨?_, ?_, ?_, ?_, ?_, ?_, ?_, ?_, ?_, ?_, ?_, ?_, ?_, ?_, ?_, ?_,
      ?_, ?_, ?_, ?_, ?_, ?_, ?_, ?_, ?_, ?_, ?_⟩
    · intro h1 h2
      have hc : ManagerM.cpOk f p = false := by
        simp [ManagerM.cpOk, h1, h2]
      simp [ManagerM.filterChecksPass, hc]
    · intro h1 h2
      simp [ManagerM.cpOk, h1, h2]
    · intro h1 h2
      have hc : ManagerM.levelOk f p = false := by
        simp [ManagerM.levelOk, h1, h2]
      simp [ManagerM.filterChecksPass, hc]
    · intro h1 h2
      simp [ManagerM.levelOk, h1, h2]
    · intro h1 h2
      have hc : ManagerM.ivOk f p = false := by
        simp [ManagerM.ivOk, h1, h2]
      simp [ManagerM.filterChecksPass, hc]
    · intro h1 h2
      simp [ManagerM.ivOk, h1, h2]
    · intro h1 h2
      have hc : ManagerM.atkOk f p = false := by
        simp [ManagerM.atkOk, h1, h2]
      simp [ManagerM.filterChecksPass, hc]
    · intro h1 h2
      simp [ManagerM.atkOk, h1, h2]
    · intro h1 h2
      have hc : ManagerM.defivOk f p = false := by
        simp [ManagerM.defivOk, h1, h2]
      simp [ManagerM.filterChecksPass, hc]
    · intro h1 h2
      simp [ManagerM.defivOk, h1, h2]
    · intro h1 h2
      have hc : ManagerM.staOk f p = false := by
        simp [ManagerM.staOk, h1, h2]
      simp [ManagerM.filterChecksPass, hc]
    · intro h1 h2
      simp [ManagerM.staOk, h1, h2]
    · intro h1 h2
      have hc : ManagerM.quickOk f p = false := by
        simp [ManagerM.quickOk, h1, h2]
      simp [ManagerM.filterChecksPass, hc]
    · intro h1 h2
      simp [ManagerM.quickOk, h1, h2]
    · intro h1 h2
      have hc : ManagerM.chargeOk f p = false := by
        simp [ManagerM.chargeOk, h1, h2]
      simp [ManagerM.filterChecksPass, hc]
    · intro h1 h2
      simp [ManagerM.chargeOk, h1, h2]
    · intro h1 h2
      have hc : ManagerM.movesetOk f p = false := by
        rcases h1 with h1 | h1
        · simp [ManagerM.movesetOk, h1, h2]
        · cases hq : p.quick_id with
          | none => simp [ManagerM.movesetOk, hq, h2]
          | some q => simp [ManagerM.movesetOk, hq, h1, h2]
      simp [ManagerM.filterChecksPass, hc]
    · intro h1 h2
      rcases h1 with h1 | h1
      · simp [ManagerM.movesetOk, h1, h2]
      · cases hq : p.quick_id with
        | none => simp [ManagerM.movesetOk, hq, h2]
        | some q => simp [ManagerM.movesetOk, hq, h1, h2]
    · intro h1 h2
      have hc : ManagerM.sizeOk f p = false := by
        simp [ManagerM.sizeOk, h1, h2]
      simp [ManagerM.filterChecksPass, hc]
    · intro h1 h2
      simp [ManagerM.sizeOk, h1, h2]
    · intro h1 h2
      have hc : ManagerM.genderOk f p = false := by
        simp [ManagerM.genderOk, h1, h2]
      simp [ManagerM.filterChecksPass, hc]
    · intro h1 h2
      simp [ManagerM.genderOk, h1, h2]
    · intro h1 h2
      have hc : ManagerM.ratingAtkOk f p = false := by
        simp [ManagerM.ratingAtkOk, h1, h2]
      simp [ManagerM.filterChecksPass, hc]
    · intro h1 h2
      simp [ManagerM.ratingAtkOk, h1, h2]
    · intro h1 h2
      have hc : ManagerM.ratingDefOk f p = false := by
        simp [ManagerM.ratingDefOk, h1, h2]
      simp [ManagerM.filterChecksPass, hc]
    · intro h1 h2
      simp [ManagerM.ratingDefOk, h1, h2]
    · intro h1
      simp [ManagerM.formOk, h1]
  · intro s dd
    refine ⟨?_, ?_, ?_, ?_, ?_, ?_, ?_, ?_⟩ <;>
      simp [PokemonFilter.fromSettings]

/-- C5 witness: the amended theorem applied to a filter needing CP with
`ignore_missing` set, and an event missing its CP. -/
theorem C5_witness :
    ManagerM.filterChecksPass
      (PokemonFilter.fromSettings { ignore_missing := some true, min_cp := some 10 }
        PokemonFilter.get_defaults)
      { id := "x", pkmn_id := 1, disappear_time := 0 } PDist.unkn = false :=
  (C5_theorem.1
    (PokemonFilter.fromSettings { ignore_missing := some true, min_cp := some 10 }
      PokemonFilter.get_defaults)
    { id := "x", pkmn_id := 1, disappear_time := 0 } PDist.unkn).1
    rfl (by decide)

/-- C6: the letter-grade range check passes exactly when
`min_grade >= actual >= max_grade` in the reversed A-best ordering; the
filter built from `min_rating_attack='F', max_rating_attack='A'` accepts
every grade A through F, and the one built from `'B'`/`'A'` rejects `'C'`
and accepts `'A'` and `'B'`. -/
theorem C6_theorem :
    (∀ g : Char, 'A' ≤ g → g ≤ 'F' →
      (PokemonFilter.fromSettings
        { min_rating_attack := some 'F', max_rating_attack := some 'A' }
        PokemonFilter.get_defaults).check_rating_attack g = true)
    ∧ (PokemonFilter.fromSettings
        { min_rating_attack := some 'B', max_rating_attack := some 'A' }
        PokemonFilter.get_defaults).check_rating_attack 'C' = false
    ∧ (PokemonFilter.fromSettings
        { min_rating_attack := some 'B', max_rating_attack := some 'A' }
        PokemonFilter.get_defaults).check_rating_attack 'A' = true
    ∧ (PokemonFilter.fromSettings
        { min_rating_attack := some 'B', max_rating_attack := some 'A' }
        PokemonFilter.get_defaults).check_rating_attack 'B' = true
    ∧ (∀ (f : PokemonFilter) (g : Char),
        f.check_rating_attack g = true ↔
          (g ≤ f.min_rating_attack ∧ f.max_rating_attack ≤ g)) := by
  refine ⟨?_, by decide, by decide, by decide, ?_⟩
  · intro g h1 h2
    have e1 : (PokemonFilter.fromSettings
        { min_rating_attack := some 'F', max_rating_attack := some 'A' }
        PokemonFilter.get_defaults).min_rating_attack = 'F' := by decide
    have e2 : (PokemonFilter.fromSettings
        { min_rating_attack := some 'F', max_rating_attack := some 'A' }
        PokemonFilter.get_defaults).max_rating_attack = 'A' := by decide
    simp [PokemonFilter.check_rating_attack, e1, e2, h1, h2]
  · intro f g
    simp [PokemonFilter.check_rating_attack]

/-- C6 witness: the universally quantified part applied to the concrete
grade `'D'`. -/
theorem C6_witness :
    (PokemonFilter.fromSettings
      { min_rating_attack := some 'F', max_rating_attack := some 'A' }
      PokemonFilter.get_defaults).check_rating_attack 'D' = true :=
  C6_theorem.1 'D' (by decide) (by decide)

/-- C7: evaluation against the ordered list of alternative filters passes
exactly when some filter in the list passes all its gates, the result is
first-match (the returned pair is determined by the first passing filter),
and one filter's outcome is the order-independent conjunction of its
fifteen gates; an empty or match-free list rejects. -/
theorem C7_theorem (fs : List PokemonFilter) (p : PokemonEvent) (d : PDist) :
    ((ManagerM.check_pokemon_filter fs p d).1 = true ↔
      ∃ f, f ∈ fs ∧ ManagerM.filterChecksPass f p d = true)
    ∧ (ManagerM.check_pokemon_filter fs p d =
        match fs.find? (fun f => ManagerM.filterChecksPass f p d) with
        | some f => (true, f.check_mention)
        | none => (false, p.mention))
    ∧ (∀ f : PokemonFilter,
        ManagerM.filterChecksPass f p d = true ↔
          (ManagerM.distOk f d = true ∧ ManagerM.cpOk f p = true ∧
           ManagerM.levelOk f p = true ∧ ManagerM.ivOk f p = true ∧
           ManagerM.atkOk f p = true ∧ ManagerM.defivOk f p = true ∧
           ManagerM.staOk f p = true ∧ ManagerM.quickOk f p = true ∧
           ManagerM.chargeOk f p = true ∧ ManagerM.movesetOk f p = true ∧
           ManagerM.sizeOk f p = true ∧ ManagerM.genderOk f p = true ∧
           ManagerM.formOk f p = true ∧ ManagerM.ratingAtkOk f p = true ∧
           ManagerM.ratingDefOk f p = true)) := by
  refine ⟨?_, ?_, ?_⟩
  · induction fs with
    | nil => simp [ManagerM.check_pokemon_filter]
    | cons f rest ih =>
      by_cases h : ManagerM.filterChecksPass f p d = true
      · simp [ManagerM.check_pokemon_filter, h]
      · simp only [Bool.not_eq_true] at h
        simp [ManagerM.check_pokemon_filter, h, ih]
  · induction fs with
    | nil => simp [ManagerM.check_pokemon_filter]
    | cons f rest ih =>
      by_cases h : ManagerM.filterChecksPass f p d = true
      · simp [ManagerM.check_pokemon_filter, List.find?_cons, h]
      · simp only [Bool.not_eq_true] at h
        simp [ManagerM.check_pokemon_filter, List.find?_cons, h, ih]
  · intro f
    simp [ManagerM.filterChecksPass, Bool.and_eq_true, and_assoc]

/-- When the point is inside none of the geofences, the name lookup returns
`'unknown'`. -/
theorem check_geofences_all_out (gfs : List Geofence) (lat lng : ℚ)
    (h : ∀ gf ∈ gfs, gf.containsB lat lng = false) :
    check_geofences gfs lat lng = "unknown" := by
  induction gfs with
  | nil => rfl
  | cons gf rest ih =>
    have h1 := h gf (by simp)
    simp only [check_geofences, h1, Bool.false_eq_true, if_false]
    exact ih (fun g hg => h g (by simp [hg]))

/-- The name lookup returns the name of the first containing geofence. -/
theorem check_geofences_first (pre : List Geofence) (gf : Geofence)
    (post : List Geofence) (lat lng : ℚ)
    (hpre : ∀ g ∈ pre, g.containsB lat lng = false)
    (hin : gf.containsB lat lng = true) :
    check_geofences (pre ++ gf :: post) lat lng = gf.name := by
  induction pre with
  | nil => simp [check_geofences, hin]
  | cons g rest ih =>
    have h1 := hpre g (by simp)
    simp only [List.cons_append, check_geofences, h1, Bool.false_eq_true,
      if_false]
    exact ih (fun g' hg => hpre g' (by simp [hg]))

/-- C8: with zero configured geofences the gate never rejects; with at least
one, a point contained in none of them is rejected; and the name lookup
returns the first containing polygon's name in configured order, or
`'unknown'` when none contains the point. -/
theorem C8_theorem (gfs : List Geofence) (lat lng : ℚ) :
    (gfs = [] → geofence_reject gfs lat lng = false)
    ∧ ((∀ gf ∈ gfs, gf.containsB lat lng = false) →
        check_geofences gfs lat lng = "unknown")
    ∧ (gfs ≠ [] → (∀ gf ∈ gfs, gf.containsB lat lng = false) →
        geofence_reject gfs lat lng = true)
    ∧ (∀ (pre : List Geofence) (gf : Geofence) (post : List Geofence),
        gfs = pre ++ gf :: post →
        (∀ g ∈ pre, g.containsB lat lng = false) →
        gf.containsB lat lng = true →
        check_geofences gfs lat lng = gf.name) := by
  refine ⟨?_, ?_, ?_, ?_⟩
  · intro h
    subst h
    rfl
  · exact check_geofences_all_out gfs lat lng
  · intro hne hall
    have hu := check_geofences_all_out gfs lat lng hall
    have hl : decide (0 < gfs.length) = true := by
      cases gfs with
      | nil => exact absurd rfl hne
      | cons g rest => simp
    simp [geofence_reject, hu, hl]
  · intro pre gf post hsplit hpre hin
    subst hsplit
    exact check_geofences_first pre gf post lat lng hpre hin

/-- C8 witness: a concrete square geofence named `home` with vertices
(0,0), (0,10), (10,10), (10,0); the point (5,5) resolves to `home`, the
point (20,20) is rejected by the gate, and with no geofences the gate
accepts (20,20). -/
theorem C8_witness :
    check_geofences [⟨"home", [(0, 0), (0, 10), (10, 10), (10, 0)]⟩] 5 5 = "home"
    ∧ geofence_reject [⟨"home", [(0, 0), (0, 10), (10, 10), (10, 0)]⟩] 20 20 = true
    ∧ geofence_reject [] 20 20 = false :=
  ⟨( C8_theorem [⟨"home", [(0, 0), (0, 10), (10, 10), (10, 0)]⟩] 5 5).2.2.2
      [] ⟨"home", [(0, 0), (0, 10), (10, 10), (10, 0)]⟩ [] rfl (by simp)
      (by norm_num [Geofence.containsB, ringEdges, edgeCrosses]),
   ( C8_theorem [⟨"home", [(0, 0), (0, 10), (10, 10), (10, 0)]⟩] 20 20).2.2.1
      (by simp)
      (by
        intro gf hgf
        rw [List.mem_singleton] at hgf
        subst hgf
        norm_num [Geofence.containsB, ringEdges, edgeCrosses]),
   (C8_theorem [] 20 20).1 rfl⟩

/-- C9: a gym filter built from a settings dict without a `from_team` key
takes (a copy of) the default filter's `to_team` set as its `from_team`, so
a customised default `from_team` is never inherited. -/
theorem C9_theorem (s : GymSettings) (d : GymDefaults)
    (h : s.from_team = none) :
    (GymFilter.fromSettings s d).from_team = d.to_team
    ∧ (d.from_team ≠ d.to_team →
        (GymFilter.fromSettings s d).from_team ≠ d.from_team) := by
  have he : (GymFilter.fromSettings s d).from_team = d.to_team := by
    simp [GymFilter.fromSettings, h]
  refine ⟨he, ?_⟩
  intro hne
  rw [he]
  exact fun hc => hne hc.symm

/-- C9 witness: with default `to_team = [1,2]` and `from_team = [0,3]`, a
settings dict omitting `from_team` yields a filter whose `from_team` is
`[1,2]`, not the default's `[0,3]`. -/
theorem C9_witness :
    (GymFilter.fromSettings { to_team := some [2] }
      ⟨PFloat.fin 0, PFloat.inf, [1, 2], [0, 3]⟩).from_team = [1, 2]
    ∧ (GymFilter.fromSettings { to_team := some [2] }
      ⟨PFloat.fin 0, PFloat.inf, [1, 2], [0, 3]⟩).from_team ≠ [0, 3] :=
  ⟨(C9_theorem { to_team := some [2] }
      ⟨PFloat.fin 0, PFloat.inf, [1, 2], [0, 3]⟩ rfl).1,
   (C9_theorem { to_team := some [2] }
      ⟨PFloat.fin 0, PFloat.inf, [1, 2], [0, 3]⟩ rfl).2 (by decide)⟩

/-- C10: with no reference location the computed distance is the `'unkn'`
sentinel and every handler's distance-range check is skipped, so
`min_dist`/`max_dist` never cause a rejection: a creature (and raid-boss)
filter's outcome at `'unkn'` does not depend on its distance bounds, the
pokestop and weather loops at `'unkn'` pass whenever any filter is
configured, the egg check at `'unkn'` reduces to the level bounds alone,
and the gym filter loop at `'unkn'` reduces to the faction-set checks
alone. -/
theorem C10_theorem (cd : ℚ × ℚ → ℚ × ℚ → ℚ) (pa : ℚ × ℚ)
    (f : PokemonFilter) (p : PokemonEvent) (a b a2 b2 : PFloat)
    (fs : List PokestopFilter) (es : EggSection) (lvl : ℤ)
    (gfs : List GymFilter) (ft tt : ℕ) (ws : List WeatherFilter) :
    (get_earth_dist cd pa none = PDist.unkn)
    ∧ (ManagerM.filterChecksPass { f with min_dist := a, max_dist := b } p PDist.unkn
        = ManagerM.filterChecksPass { f with min_dist := a2, max_dist := b2 } p PDist.unkn)
    ∧ (fs ≠ [] → check_pokestop_filters fs PDist.unkn = true)
    ∧ (check_egg_filter es lvl PDist.unkn
        = (decide (es.min_level ≤ lvl) && decide (lvl ≤ es.max_level)))
    ∧ (check_gym_filters gfs PDist.unkn ft tt
        = gfs.any (fun g => g.check_from_team ft && g.check_to_team tt))
    ∧ (ws ≠ [] → check_weather_filters ws PDist.unkn = true) := by
  refine ⟨rfl, rfl, ?_, ?_, ?_, ?_⟩
  · intro h
    cases fs with
    | nil => exact absurd rfl h
    | cons g rest => simp [check_pokestop_filters]
  · by_cases h1 : lvl < es.min_level
    · have h2 : ¬ es.min_level ≤ lvl := by omega
      simp [check_egg_filter, h1, h2]
    · by_cases h2 : es.max_level < lvl
      · have h3 : ¬ lvl ≤ es.max_level := by omega
        simp [check_egg_filter, h1, h2, h3]
      · have h3 : es.min_level ≤ lvl := by omega
        have h4 : lvl ≤ es.max_level := by omega
        simp [check_egg_filter, h1, h2, h3, h4]
  · induction gfs with
    | nil => rfl
    | cons g rest ih =>
      by_cases h : (g.check_from_team ft && g.check_to_team tt) = true
      · simp [check_gym_filters, h]
      · simp only [Bool.not_eq_true] at h
        simp [check_gym_filters, h, ih]
  · intro h
    cases ws with
    | nil => exact absurd rfl h
    | cons g rest => simp [check_weather_filters]

/-- C10 witness: the pokestop and weather loops with one configured filter
and no location pass, and the egg check without a location accepts a level
inside its level bounds whatever its distance bounds say. -/
theorem C10_witness :
    check_pokestop_filters [⟨PFloat.fin 3, PFloat.fin 4⟩] PDist.unkn = true
    ∧ check_weather_filters [⟨PFloat.fin 3, PFloat.fin 4⟩] PDist.unkn = true :=
  ⟨(C10_theorem (fun _ _ => 0) (0, 0)
      (PokemonFilter.fromSettings {} PokemonFilter.get_defaults)
      { id := "x", pkmn_id := 1, disappear_time := 0 }
      PFloat.inf PFloat.inf PFloat.inf PFloat.inf
      [⟨PFloat.fin 3, PFloat.fin 4⟩] ⟨0, 10, PFloat.fin 3, PFloat.fin 4⟩ 5
      [] 0 0 [⟨PFloat.fin 3, PFloat.fin 4⟩]).2.2.1 (by simp),
   (C10_theorem (fun _ _ => 0) (0, 0)
      (PokemonFilter.fromSettings {} PokemonFilter.get_defaults)
      { id := "x", pkmn_id := 1, disappear_time := 0 }
      PFloat.inf PFloat.inf PFloat.inf PFloat.inf
      [⟨PFloat.fin 3, PFloat.fin 4⟩] ⟨0, 10, PFloat.fin 3, PFloat.fin 4⟩ 5
      [] 0 0 [⟨PFloat.fin 3, PFloat.fin 4⟩]).2.2.2.2.2 (by simp)⟩

/-- C4 witness: the amended theorem applied to a concrete faction change
(0 to 1) that dispatches once, whose immediate repeat is suppressed. -/
theorem C4_witness :
    process_gym_info ⟨true, false, [GymFilter.fromSettings {} GymFilter.get_defaults]⟩
        false [] none (fun _ _ => 0) [("g", 0)]
        { id := "g", new_team_id := 1, is_in_battle := PyVal.int 0,
          lat := 0, lng := 0, park := 0, slots_available := 6 }
      = (teamSet [("g", 0)] "g" 1, true)
    ∧ (process_gym_info ⟨true, false, [GymFilter.fromSettings {} GymFilter.get_defaults]⟩
        false [] none (fun _ _ => 0) (teamSet [("g", 0)] "g" 1)
        { id := "g", new_team_id := 1, is_in_battle := PyVal.int 0,
          lat := 0, lng := 0, park := 0, slots_available := 6 }).2 = false := by
  have h := (C4_theorem
    ⟨true, false, [GymFilter.fromSettings {} GymFilter.get_defaults]⟩
    ⟨true, false, [GymFilter.fromSettings {} GymFilter.get_defaults]⟩
    false false [] [] none none (fun _ _ => 0) (fun _ _ => 0) [("g", 0)]
    { id := "g", new_team_id := 1, is_in_battle := PyVal.int 0,
      lat := 0, lng := 0, park := 0, slots_available := 6 }
    { id := "g", new_team_id := 1, is_in_battle := PyVal.int 0,
      lat := 0, lng := 0, park := 0, slots_available := 6 }).2.2 0
    (by decide) (by decide) (by decide) (by decide) (by decide) (by decide)
    (by decide)
  exact ⟨h.1, h.2 rfl rfl rfl⟩
